import Mathlib

namespace MongoPortfolio

/-!
Verification development for the MongoDB QA portfolio repository: a shallow
embedding of the test runner (`run_tests.py`), the suite executors
(`automation-scripts/mongodb_*.py`), the report generator
(`report_generator.py`) and the dashboard data loader (`dashboard.py`),
with theorems settling the behavioural claims about them.
-/

/-- A JSON-like value, the shape of the dictionaries the Python scripts
build and serialise with `json.dump` / serve with `jsonify`. -/
inductive Json where
  | null
  | bool (b : Bool)
  | num (n : Int)
  | str (s : String)
  | arr (xs : List Json)
  | obj (fields : List (String × Json))

/-- Field lookup in a JSON object: `d["k"]` when the key is present. -/
def jget (j : Json) (k : String) : Option Json :=
  match j with
  | .obj fields => fields.lookup k
  | _ => none

/-! ## Test runner (`run_tests.py`) -/

/-- The four test suites, in the fixed order `main` checks them
(functional, performance, security, validation). -/
inductive Suite where
  | functional
  | performance
  | security
  | validation
deriving DecidableEq, Repr

/-- The `--suite` argument: one of `all`, `functional`, `performance`,
`security`, `validation`. -/
inductive SuiteSel where
  | all
  | one (s : Suite)
deriving DecidableEq, Repr

/-- Whether `main` runs suite `s` under selection `sel`: mirrors the four
`if args.suite in ["all", "<name>"]` checks. -/
def selects (sel : SuiteSel) (s : Suite) : Bool :=
  match sel with
  | .all => true
  | .one t => decide (t = s)

/-- The fixed order in which `main` considers the suites. -/
def suiteOrder : List Suite :=
  [.functional, .performance, .security, .validation]

/-- The suites a selection picks, in execution order. -/
def selectedSuites (sel : SuiteSel) : List Suite :=
  suiteOrder.filter (selects sel)

/-- The `results` dict built by `main`: one entry per selected suite, in
the fixed order, recording `run_command`'s success flag
(`returncode == 0`).  `env s` is the exit code of suite `s`'s
subprocess. -/
def runSuites (sel : SuiteSel) (env : Suite → Int) : List (Suite × Bool) :=
  (if selects sel .functional then [(Suite.functional, decide (env .functional = 0))] else []) ++
  (if selects sel .performance then [(Suite.performance, decide (env .performance = 0))] else []) ++
  (if selects sel .security then [(Suite.security, decide (env .security = 0))] else []) ++
  (if selects sel .validation then [(Suite.validation, decide (env .validation = 0))] else [])

/-- The `test_execution_summary` / `suite_results` record built by
`generate_summary_report`. -/
structure RunSummary where
  total_suites : Nat
  passed_suites : Nat
  failed_suites : Nat
  overall_status : String
  suite_results : List (String × String)
deriving DecidableEq, Repr

/-- `results.get(key, False)`: lookup with default `False`. -/
def lookupResult (results : List (Suite × Bool)) (s : Suite) : Bool :=
  match results.lookup s with
  | some b => b
  | none => false

/-- `"PASS" if b else "FAIL"`. -/
def passFail (b : Bool) : String :=
  if b then "PASS" else "FAIL"

/-- `generate_summary_report(results)` from `run_tests.py`: totals, the
overall status (`PASS` iff `all(results.values())`), and the four-entry
per-suite map built with `results.get(<suite>, False)`. -/
def generate_summary_report (results : List (Suite × Bool)) : RunSummary :=
  { total_suites := results.length
    passed_suites := (results.filter (fun r => r.2)).length
    failed_suites := (results.filter (fun r => !r.2)).length
    overall_status := if results.all (fun r => r.2) then "PASS" else "FAIL"
    suite_results :=
      [("functional_tests", passFail (lookupResult results .functional)),
       ("performance_tests", passFail (lookupResult results .performance)),
       ("security_tests", passFail (lookupResult results .security)),
       ("data_validation_tests", passFail (lookupResult results .validation))] }

/-- The summary report `main` generates after running the selected
suites (environment setup assumed to have succeeded). -/
def mainSummary (sel : SuiteSel) (env : Suite → Int) : RunSummary :=
  generate_summary_report (runSuites sel env)

/-- The runner's process exit code: `sys.exit(0)` when the summary's
overall status is `PASS`, `sys.exit(1)` otherwise. -/
def mainExitCode (sel : SuiteSel) (env : Suite → Int) : Int :=
  if (mainSummary sel env).overall_status = "PASS" then 0 else 1

/-- The key of suite `s` in the `suite_results` map. -/
def suiteKey : Suite → String
  | .functional => "functional_tests"
  | .performance => "performance_tests"
  | .security => "security_tests"
  | .validation => "data_validation_tests"

/-! ## Performance suite throughput (`mongodb_performance_tests.py`) -/

/-- `test_insert_performance`: `100 / single_insert_time if
single_insert_time > 0 else 0` (100 documents are single-inserted). -/
def single_insert_rate (single_insert_time : ℚ) : ℚ :=
  if single_insert_time > 0 then 100 / single_insert_time else 0

/-- `test_insert_performance`: `document_count / bulk_insert_time if
bulk_insert_time > 0 else 0`. -/
def bulk_insert_rate (document_count : ℕ) (bulk_insert_time : ℚ) : ℚ :=
  if bulk_insert_time > 0 then (document_count : ℚ) / bulk_insert_time else 0

/-- `test_query_performance`: `1 / avg_query_time if avg_query_time > 0
else 0`. -/
def queries_per_second (avg_query_time : ℚ) : ℚ :=
  if avg_query_time > 0 then 1 / avg_query_time else 0

/-- `test_concurrent_operations`:
`(num_threads * operations_per_thread) / total_time`, with no guard on
`total_time`.  `none` models the `ZeroDivisionError` Python raises when
`total_time` is exactly 0. -/
def operations_per_second (num_threads operations_per_thread : ℕ)
    (total_time : ℚ) : Option ℚ :=
  if total_time = 0 then none
  else some (((num_threads * operations_per_thread : ℕ) : ℚ) / total_time)

/-! ## Data-validation suite: balance-mutation sequence
(`mongodb_data_validation.py`, `test_data_integrity`) -/

/-- The document `test_data_integrity` works on: a balance and an
ordered transaction history. -/
structure Account where
  balance : ℤ
  transactions : List (String × ℤ)
deriving DecidableEq, Repr

/-- One `update_one` call with `{"$inc": {"balance": delta}, "$push":
{"transactions": tx}}`: `$inc` adds the signed delta to the balance and
`$push` appends the transaction record to the history. -/
def mongoUpdate (acc : Account) (delta : ℤ) (tx : String × ℤ) : Account :=
  { balance := acc.balance + delta
    transactions := acc.transactions ++ [tx] }

/-- The `for update in updates: collection.update_one(...)` loop:
sequential partial updates applied in order. -/
def applyUpdates (acc : Account) (updates : List (ℤ × String × ℤ)) : Account :=
  updates.foldl (fun a u => mongoUpdate a u.1 u.2) acc

/-- The `original_doc` of `test_data_integrity`: balance 1000, empty
transaction history. -/
def original_doc : Account :=
  { balance := 1000, transactions := [] }

/-- The three updates `test_data_integrity` applies: withdraw 100,
deposit 50, withdraw 75. -/
def integrity_updates : List (ℤ × String × ℤ) :=
  [(-100, ("withdrawal", 100)), (50, ("deposit", 50)), (-75, ("withdrawal", 75))]

/-! ## Security suite input validator (`mongodb_security_tests.py`,
`validate_user_input` inside `test_injection_attacks`) -/

/-- The structural-operator characters the validator rejects:
`["$", "{", "}", ";"]`. -/
def banned_chars : List Char := ['$', '\x7b', '\x7d', ';']

/-- `validate_user_input(username)`: reject non-strings, strings longer
than 50 characters, and strings containing any banned character
(`any(char in username for char in ["$", "{", "}", ";"])`);
accept everything else. -/
def validate_user_input : Json → Bool
  | .str username =>
      if username.length > 50 then false
      else if banned_chars.any (fun c => decide (c ∈ username.data)) then false
      else true
  | _ => false

/-- The five `test_inputs` of `test_injection_attacks`. -/
def injection_test_inputs : List Json :=
  [.str "admin", .str "user1", .str "$ne",
   .str "admin; drop table users;", .obj [("$ne", Json.null)]]

/-! ## Suite executors: run-full operations and their report files -/

/-- One completed run-full invocation: the in-memory accumulator after
all checks ran, and the report file (name and JSON content) written at
the end. -/
structure SuiteReportRun where
  accumulator : List Json
  reportFile : String
  reportContent : Json

/-- `self.results.append(result)` / `self.test_results.append(result)`:
each check appends its result record to the in-memory accumulator. -/
def appendResult (acc : List Json) (r : Json) : List Json :=
  acc ++ [r]

/-- `generate_performance_report`: serialises `self.results` plus a
timestamp to `reports/performance_report_<timestamp>.json`. -/
def generate_performance_report (results : List Json) (ts : String) : String × Json :=
  ("reports/performance_report_" ++ ts ++ ".json",
   Json.obj
     [("test_summary", Json.obj
        [("total_tests", .num (results.length : Int)),
         ("test_timestamp", .str ts),
         ("database", .str "performance_test_db")]),
      ("results", .arr results)])

/-- The `recommendations` list `generate_security_report` embeds. -/
def security_recommendations : List Json :=
  [.str "Enable authentication in production environments",
   .str "Configure SSL/TLS for encrypted connections",
   .str "Implement proper input validation and sanitization",
   .str "Use application-level encryption for sensitive data",
   .str "Regularly update MongoDB to latest security patches",
   .str "Monitor database access logs",
   .str "Implement role-based access control (RBAC)",
   .str "Use connection string encryption in configuration files"]

/-- `generate_security_report`: serialises `self.test_results` plus a
timestamp to `reports/security_report_<timestamp>.json`. -/
def generate_security_report (test_results : List Json) (ts : String) : String × Json :=
  ("reports/security_report_" ++ ts ++ ".json",
   Json.obj
     [("security_test_summary", Json.obj
        [("total_categories", .num (test_results.length : Int)),
         ("test_timestamp", .str ts),
         ("tester", .str "MongoDB QA Security Suite")]),
      ("test_results", .arr test_results),
      ("recommendations", .arr security_recommendations)])

/-- The `recommendations` list `generate_validation_report` embeds. -/
def validation_recommendations : List Json :=
  [.str "Implement comprehensive schema validation for all collections",
   .str "Use unique indexes to prevent duplicate data",
   .str "Implement data quality checks in application layer",
   .str "Regular data integrity audits",
   .str "Use transactions for multi-document operations when using replica sets",
   .str "Implement proper error handling and rollback mechanisms",
   .str "Use data validation libraries in application code",
   .str "Monitor data quality metrics continuously"]

/-- `generate_validation_report`: serialises `self.test_results` plus a
timestamp to `reports/validation_report_<timestamp>.json`. -/
def generate_validation_report (test_results : List Json) (ts : String) : String × Json :=
  ("reports/validation_report_" ++ ts ++ ".json",
   Json.obj
     [("validation_test_summary", Json.obj
        [("total_categories", .num (test_results.length : Int)),
         ("test_timestamp", .str ts),
         ("database", .str "validation_test_db")]),
      ("test_results", .arr test_results),
      ("recommendations", .arr validation_recommendations)])

/-- `run_full_performance_suite`: the four benchmark checks append their
result records (here `rs`, the environment-measured outcomes, in check
order) to the accumulator, then `generate_performance_report` writes the
accumulator plus a timestamp to the category file. -/
def run_full_performance_suite (rs : List Json) (ts : String) : SuiteReportRun :=
  let acc := rs.foldl appendResult []
  let report := generate_performance_report acc ts
  { accumulator := acc, reportFile := report.1, reportContent := report.2 }

/-- `run_full_security_suite`: the five security check categories append
their result records to the accumulator, then `generate_security_report`
writes the accumulator plus a timestamp to the category file. -/
def run_full_security_suite (rs : List Json) (ts : String) : SuiteReportRun :=
  let acc := rs.foldl appendResult []
  let report := generate_security_report acc ts
  { accumulator := acc, reportFile := report.1, reportContent := report.2 }

/-- `run_full_validation_suite`: the three validation check categories
append their result records to the accumulator, then
`generate_validation_report` writes the accumulator plus a timestamp to
the category file. -/
def run_full_validation_suite (rs : List Json) (ts : String) : SuiteReportRun :=
  let acc := rs.foldl appendResult []
  let report := generate_validation_report acc ts
  { accumulator := acc, reportFile := report.1, reportContent := report.2 }

/-- The run-full operation each suite module exposes (taking the
environment-measured check results and a timestamp).  The
functional/CRUD module `mongodb_crud_tests.py` is a pytest test module:
it defines no run-full operation, keeps no accumulator, and writes no
report file — hence `none`. -/
def suiteRunFull : Suite → Option (List Json → String → SuiteReportRun)
  | .functional => none
  | .performance => some run_full_performance_suite
  | .security => some run_full_security_suite
  | .validation => some run_full_validation_suite

/-! ## Locating result files (`report_generator.py` /
`TestReportGenerator.load_latest_results` and `dashboard.py` /
`TestDashboard.load_latest_results`) -/

/-- Lexicographic comparison of strings as lists of code points: the
order Python's `sorted` puts filenames in. -/
def lexLe : List Char → List Char → Bool
  | [], _ => true
  | _ :: _, [] => false
  | a :: as, b :: bs => if a < b then true else if b < a then false else lexLe as bs

/-- `f.startswith(p)`. -/
def startsWith (p f : String) : Bool :=
  p.data.isPrefixOf f.data

/-- The `[f for f in os.listdir(...) if f.startswith(p)]`
comprehension over a directory listing. -/
def matchingFiles (p : String) (names : List String) : List String :=
  names.filter (fun f => startsWith p f)

/-- One step of taking the greatest element of a filename list. -/
def maxStep (acc : Option String) (f : String) : Option String :=
  match acc with
  | none => some f
  | some g => if lexLe g.data f.data then some f else some g

/-- `sorted(files)[-1]` guarded by `if files:`: the lexicographically
greatest filename of a listing, if any. -/
def sortedLast (files : List String) : Option String :=
  files.foldl maxStep none

/-- A flat reports directory: each file's name and parsed JSON content,
in `os.listdir` order. -/
abbrev ReportsDir := List (String × Json)

/-- `os.path.exists(name)` + `open(name)` + `json.load`: the content of
a fixed filename when the file exists. -/
def readFile (dir : ReportsDir) (name : String) : Option Json :=
  dir.lookup name

/-- The five categories `TestReportGenerator.load_latest_results`
fills. -/
structure LoadedResults where
  crud : Option Json
  performance : Option Json
  security : Option Json
  validation : Option Json
  summary : Option Json

/-- `TestReportGenerator.load_latest_results`: the four suite categories
are read from the fixed filenames `crud_test_results.json`,
`performance_test_results.json`, `security_test_results.json` and
`data_validation_results.json`; only the summary is located as the
lexicographically greatest `test_summary_`-prefixed filename. -/
def load_latest_results (dir : ReportsDir) : LoadedResults :=
  { crud := readFile dir "crud_test_results.json"
    performance := readFile dir "performance_test_results.json"
    security := readFile dir "security_test_results.json"
    validation := readFile dir "data_validation_results.json"
    summary := (sortedLast (matchingFiles "test_summary_" (dir.map Prod.fst))).bind
      (readFile dir) }

/-- A file's content as `json.load` sees it: `Except.error` models a
file whose read or parse raises. -/
abbrev FileRead := Except Unit Json

/-- The reports directory as the dashboard sees it: `none` when the
directory is missing, so that `os.listdir` raises `FileNotFoundError`. -/
abbrev DirState := Option (List (String × FileRead))

/-- A directory in which every file reads and parses cleanly. -/
def okDir (dir : ReportsDir) : List (String × FileRead) :=
  dir.map (fun p => (p.1, Except.ok p.2))

/-- One category block of `TestDashboard.load_latest_results`: filter
the listing by prefix, take the lexicographically greatest name, read
and parse it into the results dict under `key`.  An `Except.error`
carries the results accumulated when an exception escapes the block. -/
def loadStep (fs : List (String × FileRead)) (p key : String)
    (acc : List (String × Json)) :
    Except (List (String × Json)) (List (String × Json)) :=
  match sortedLast (matchingFiles p (fs.map Prod.fst)) with
  | none => .ok acc
  | some latest =>
    match fs.lookup latest with
    | some (.ok j) => .ok (acc ++ [(key, j)])
    | _ => .error acc

/-- The body of the dashboard's `try` block: the summary, performance,
security and validation blocks in order, an exception in any of them
aborting the rest. -/
def dashboard_load_raw (d : DirState) :
    Except (List (String × Json)) (List (String × Json)) :=
  match d with
  | none => .error []
  | some fs =>
    match loadStep fs "test_summary_" "summary" [] with
    | .error r => .error r
    | .ok acc1 =>
      match loadStep fs "performance_report_" "performance" acc1 with
      | .error r => .error r
      | .ok acc2 =>
        match loadStep fs "security_report_" "security" acc2 with
        | .error r => .error r
        | .ok acc3 =>
          match loadStep fs "validation_report_" "validation" acc3 with
          | .error r => .error r
          | .ok acc4 => .ok acc4

/-- `TestDashboard.load_latest_results`: the whole body sits in a
`try`/`except Exception` that prints the error and returns whatever
`results` held at that point. -/
def dashboard_load_latest_results (d : DirState) : List (String × Json) :=
  match dashboard_load_raw d with
  | .ok r => r
  | .error r => r

/-- The `/api/data` route: `jsonify(self.load_latest_results())`. -/
def api_data (d : DirState) : Json :=
  .obj (dashboard_load_latest_results d)

/-- A directory holding only one timestamped performance report file. -/
def perfOnlyDir : ReportsDir :=
  [("performance_report_20250101_000000.json", Json.obj [])]

/-- A directory holding two timestamped summary files. -/
def summaryPairDir : ReportsDir :=
  [("test_summary_20240101_000000.json", Json.obj []),
   ("test_summary_20240202_000000.json", Json.obj [])]

/-! ## Report rendering (`report_generator.py`,
`generate_html_report` and `generate_excel_report`) -/

/-- Jinja2 truthiness of a Python value: `None`, `False`, `0`, `""`,
`[]` and `{}` are falsy. -/
def jinjaTruthy : Json → Bool
  | .null => false
  | .bool b => b
  | .num n => decide (n ≠ 0)
  | .str s => decide (s ≠ "")
  | .arr xs => !xs.isEmpty
  | .obj fields => !fields.isEmpty

/-- Truthiness of a template variable that may be Python `None`. -/
def jinjaTruthyOpt : Option Json → Bool
  | none => false
  | some j => jinjaTruthy j

/-- `d.get(k, {})`. -/
def jgetD (j : Json) (k : String) : Json :=
  (jget j k).getD (.obj [])

/-- Python `"k" in d` on a report file's parsed content (the report
files the suites write are JSON objects, the only case that arises). -/
def jHasKey (j : Json) (k : String) : Bool :=
  match j with
  | .obj fields => (fields.map Prod.fst).contains k
  | _ => false

/-- The rendering context `generate_html_report` passes to
`template.render`: `summary` is
`results.get("summary", {}).get("test_execution_summary", {})`, the
four categories are `results.get(<category>)`. -/
structure HtmlContext where
  summary : Json
  crud : Option Json
  performance : Option Json
  security : Option Json
  validation : Option Json

/-- Builds the `template.render(...)` keyword arguments from the loaded
results. -/
def htmlContext (r : LoadedResults) : HtmlContext :=
  { summary := jgetD (r.summary.getD (.obj [])) "test_execution_summary"
    crud := r.crud
    performance := r.performance
    security := r.security
    validation := r.validation }

/-- The top-level blocks of the HTML template. -/
inductive SectionId where
  | header
  | coverageOverview
  | crud
  | performance
  | security
  | validation
  | recommendations
  | footer
deriving DecidableEq, Repr

/-- The sections the HTML template emits: the header, summary cards and
static coverage-overview table always; the four category sections only
under their `{% if <category> %}` guards; the recommendations block only
under `{% if summary and summary.recommendations %}`; the footer
always. -/
def htmlSections (ctx : HtmlContext) : List SectionId :=
  [SectionId.header, .coverageOverview] ++
  (if jinjaTruthyOpt ctx.crud then [SectionId.crud] else []) ++
  (if jinjaTruthyOpt ctx.performance then [SectionId.performance] else []) ++
  (if jinjaTruthyOpt ctx.security then [SectionId.security] else []) ++
  (if jinjaTruthyOpt ctx.validation then [SectionId.validation] else []) ++
  (if jinjaTruthy ctx.summary && jinjaTruthyOpt (jget ctx.summary "recommendations")
    then [SectionId.recommendations] else []) ++
  [SectionId.footer]

/-- `generate_html_report`: load the latest results, build the context,
render the template. -/
def generate_html_report (dir : ReportsDir) : List SectionId :=
  htmlSections (htmlContext (load_latest_results dir))

/-- The sheets `generate_excel_report` writes inside the
`with pd.ExcelWriter` body (before the writer closes): one per category
whose results are present (and, for
CRUD/performance/security/validation, whose content holds the expected
results key), in the body's fixed order. -/
def excelSheets (r : LoadedResults) : List String :=
  (if r.summary.isSome then ["Summary"] else []) ++
  (match r.crud with
   | some j => if jHasKey j "test_results" then ["CRUD Tests"] else []
   | none => []) ++
  (match r.performance with
   | some j => if jHasKey j "performance_results" then ["Performance Tests"] else []
   | none => []) ++
  (match r.security with
   | some j => if jHasKey j "security_results" then ["Security Tests"] else []
   | none => []) ++
  (match r.validation with
   | some j =>
      (if jHasKey j "validation_results" then ["Data Validation"] else []) ++
      (if jHasKey j "data_quality_results" then ["Data Quality"] else [])
   | none => [])

/-- `generate_excel_report`: load the latest results, write one sheet
per present category, then leave the `with pd.ExcelWriter` block, which
closes (saves) the workbook.  pandas' openpyxl writer removes the
default worksheet at construction, and closing with zero sheets written
makes openpyxl's save raise `IndexError` ("At least one sheet must be
visible"); `.error` models that raise, so an output document is
produced only when at least one sheet was written. -/
def generate_excel_report (dir : ReportsDir) : Except Unit (List String) :=
  let sheets := excelSheets (load_latest_results dir)
  if sheets.isEmpty then .error () else .ok sheets

/-- No result file present for any category. -/
def allAbsent : LoadedResults :=
  { crud := none, performance := none, security := none,
    validation := none, summary := none }

/-! ## Theorems -/

theorem runSuites_map_fst (sel : SuiteSel) (env : Suite → Int) :
    (runSuites sel env).map Prod.fst = selectedSuites sel := by
  cases sel with
  | all => simp [runSuites, selectedSuites, suiteOrder, selects]
  | one t => cases t <;> simp [runSuites, selectedSuites, suiteOrder, selects]

theorem lookupResult_runSuites (sel : SuiteSel) (env : Suite → Int) (s : Suite) :
    lookupResult (runSuites sel env) s = (selects sel s && decide (env s = 0)) := by
  cases sel with
  | all => cases s <;> rfl
  | one t => cases t <;> cases s <;> rfl

theorem runSuites_all_iff (sel : SuiteSel) (env : Suite → Int) :
    ((runSuites sel env).all (fun r => r.2) = true) ↔
      ∀ s ∈ selectedSuites sel, env s = 0 := by
  cases sel with
  | all => simp [runSuites, selectedSuites, suiteOrder, selects]
  | one t => cases t <;> simp [runSuites, selectedSuites, suiteOrder, selects]

theorem overall_status_pass_iff (sel : SuiteSel) (env : Suite → Int) :
    ((mainSummary sel env).overall_status = "PASS") ↔
      ((runSuites sel env).all (fun r => r.2) = true) := by
  by_cases h : (runSuites sel env).all (fun r => r.2) = true
  · simp [mainSummary, generate_summary_report, h]
  · simp [mainSummary, generate_summary_report, h]

/-- C1: for every suite selection, the runner's exit code is 0 iff every
selected suite's subprocess exit code was 0; equivalently, the summary's
overall status is `PASS` exactly when every entry of the per-suite
success map built by `main` is true. -/
theorem runner_exit_zero_iff_selected_pass (sel : SuiteSel) (env : Suite → Int) :
    (mainExitCode sel env = 0 ↔ ∀ s ∈ selectedSuites sel, env s = 0) ∧
    ((mainSummary sel env).overall_status = "PASS" ↔
      (runSuites sel env).all (fun r => r.2) = true) := by
  refine ⟨?_, overall_status_pass_iff sel env⟩
  rw [mainExitCode]
  rcases Classical.em ((mainSummary sel env).overall_status = "PASS") with h | h
  · simp [h, (overall_status_pass_iff sel env).mp h, ← runSuites_all_iff sel env]
  · have h2 : ¬ ((runSuites sel env).all (fun r => r.2) = true) :=
      fun hc => h ((overall_status_pass_iff sel env).mpr hc)
    simp [h, ← runSuites_all_iff sel env, h2]

/-- Witness for C1 at a concrete selection and environment. -/
theorem runner_exit_zero_iff_selected_pass_witness :
    mainExitCode .all (fun s => if s = .security then 1 else 0) = 1 := by
  have h := runner_exit_zero_iff_selected_pass .all (fun s => if s = .security then 1 else 0)
  rcases Classical.em
      (mainExitCode .all (fun s => if s = .security then 1 else 0) = 0) with h0 | h0
  · have := (h.1.mp h0) .security (by decide)
    simp at this
  · rw [mainExitCode] at h0 ⊢
    rcases Classical.em
        ((mainSummary .all (fun s => if s = .security then 1 else 0)).overall_status = "PASS")
      with hp | hp
    · simp [hp] at h0
    · simp [hp]

/-- C8: a failing suite does not halt the run — the list of executed
suites is exactly the requested ones in the fixed order functional,
performance, security, validation, independent of the suites' exit
codes, and the summary report is generated from the full results map in
every case. -/
theorem suites_always_run_in_fixed_order (sel : SuiteSel) (env env' : Suite → Int) :
    (runSuites sel env).map Prod.fst = selectedSuites sel ∧
    (runSuites sel env).map Prod.fst = (runSuites sel env').map Prod.fst ∧
    mainSummary sel env = generate_summary_report (runSuites sel env) := by
  refine ⟨runSuites_map_fst sel env, ?_, rfl⟩
  rw [runSuites_map_fst sel env, runSuites_map_fst sel env']

/-- Witness for C8: with `all` selected, an environment where every suite
fails still executes all four suites in order. -/
theorem suites_always_run_in_fixed_order_witness :
    (runSuites .all (fun _ => 1)).map Prod.fst =
      [Suite.functional, .performance, .security, .validation] :=
  (suites_always_run_in_fixed_order .all (fun _ => 1) (fun _ => 0)).1

theorem suite_results_lookup (sel : SuiteSel) (env : Suite → Int) (s : Suite) :
    (mainSummary sel env).suite_results.lookup (suiteKey s) =
      some (passFail (lookupResult (runSuites sel env) s)) := by
  cases s <;> simp [mainSummary, generate_summary_report, suiteKey, List.lookup]

/-- C9: the per-suite results map always holds entries for all four
suites; a suite that was never run is recorded as `FAIL`, while
`total_suites` counts only the suites actually run. -/
theorem summary_map_records_unrun_as_fail (sel : SuiteSel) (env : Suite → Int) :
    (mainSummary sel env).suite_results.map Prod.fst =
      ["functional_tests", "performance_tests", "security_tests", "data_validation_tests"] ∧
    (mainSummary sel env).total_suites = (selectedSuites sel).length ∧
    ∀ s : Suite, selects sel s = false →
      (mainSummary sel env).suite_results.lookup (suiteKey s) = some "FAIL" := by
  refine ⟨by simp [mainSummary, generate_summary_report], ?_, ?_⟩
  · have h := congrArg List.length (runSuites_map_fst sel env)
    simpa [mainSummary, generate_summary_report] using h
  · intro s hs
    rw [suite_results_lookup sel env s, lookupResult_runSuites sel env s, hs]
    rfl

/-- Witness for C9: selecting only the functional suite records the
security suite, which never ran, as `FAIL`. -/
theorem summary_map_records_unrun_as_fail_witness :
    (mainSummary (.one .functional) (fun _ => 0)).suite_results.lookup
      "security_tests" = some "FAIL" :=
  (summary_map_records_unrun_as_fail (.one .functional) (fun _ => 0)).2.2
    .security (by decide)

/-- C2 counterexample: at the suite's own parameters (5 threads, 50
operations per thread, as called by `run_full_performance_suite`), a
measured elapsed time of 0 makes the concurrent operations-per-second
computation fault instead of returning 0. -/
theorem operations_per_second_zero_elapsed_faults :
    operations_per_second 5 50 0 = none ∧
    operations_per_second 5 50 0 ≠ some 0 := by
  constructor <;> decide

/-- C2 amended: the single-insert, bulk-insert and per-query rates are
guarded and return 0 when the elapsed time is 0, but the concurrent
operations-per-second divides without a guard and faults whenever the
total elapsed time is 0. -/
theorem throughput_zero_elapsed_guards (document_count n k : ℕ) :
    single_insert_rate 0 = 0 ∧
    bulk_insert_rate document_count 0 = 0 ∧
    queries_per_second 0 = 0 ∧
    operations_per_second n k 0 = none := by
  refine ⟨rfl, ?_, rfl, rfl⟩
  simp [bulk_insert_rate]

/-- Witness for C2 (amended) at the suite's concrete parameters. -/
theorem throughput_zero_elapsed_guards_witness :
    bulk_insert_rate 1000 0 = 0 ∧ operations_per_second 5 50 0 = none :=
  ⟨(throughput_zero_elapsed_guards 1000 5 50).2.1,
   (throughput_zero_elapsed_guards 1000 5 50).2.2.2⟩

theorem applyUpdates_balance (updates : List (ℤ × String × ℤ)) (acc : Account) :
    (applyUpdates acc updates).balance =
        acc.balance + (updates.map (fun u => u.1)).sum ∧
    (applyUpdates acc updates).transactions.length =
        acc.transactions.length + updates.length := by
  induction updates generalizing acc with
  | nil => simp [applyUpdates]
  | cons u us ih =>
      have h := ih (mongoUpdate acc u.1 u.2)
      constructor
      · rw [applyUpdates, List.foldl_cons, ← applyUpdates, h.1]
        simp [mongoUpdate]
        ring
      · rw [applyUpdates, List.foldl_cons, ← applyUpdates, h.2]
        simp [mongoUpdate]
        omega

/-- C6: starting from balance `V` and applying signed deltas as
sequential partial updates leaves the balance at `V` plus the sum of the
deltas, with one transaction-history entry per update; at the code's
concrete values (1000 with deltas −100, +50, −75), the final balance is
875 and the history has length 3. -/
theorem balance_mutation_consistency (V : ℤ) (updates : List (ℤ × String × ℤ)) :
    (applyUpdates ⟨V, []⟩ updates).balance = V + (updates.map (fun u => u.1)).sum ∧
    (applyUpdates ⟨V, []⟩ updates).transactions.length = updates.length ∧
    (applyUpdates original_doc integrity_updates).balance = 875 ∧
    (applyUpdates original_doc integrity_updates).transactions.length = 3 := by
  have h := applyUpdates_balance updates ⟨V, []⟩
  exact ⟨h.1, by simpa using h.2, by decide, by decide⟩

/-- Witness for C6 at the code's concrete initial balance and deltas. -/
theorem balance_mutation_consistency_witness :
    (applyUpdates original_doc integrity_updates).balance = 875 ∧
    (applyUpdates original_doc integrity_updates).transactions.length = 3 :=
  ⟨(balance_mutation_consistency 1000 integrity_updates).2.2.1,
   (balance_mutation_consistency 1000 integrity_updates).2.2.2⟩

theorem validate_user_input_str (s : String) :
    validate_user_input (.str s) = true ↔
      s.length ≤ 50 ∧ ∀ c ∈ s.data, c ∉ banned_chars := by
  by_cases h1 : s.length > 50
  · simp only [validate_user_input, if_pos h1]
    constructor
    · intro h; cases h
    · intro h; omega
  · by_cases h2 : banned_chars.any (fun c => decide (c ∈ s.data)) = true
    · simp only [validate_user_input, if_neg h1, if_pos h2]
      simp only [List.any_eq_true, decide_eq_true_eq] at h2
      obtain ⟨c, hcb, hcs⟩ := h2
      constructor
      · intro h; cases h
      · rintro ⟨-, hall⟩; exact absurd hcb (hall c hcs)
    · simp only [validate_user_input, if_neg h1, if_neg h2]
      simp only [List.any_eq_true, decide_eq_true_eq, not_exists] at h2
      push_neg at h2
      constructor
      · intro _; exact ⟨by omega, fun c hc hb => h2 c hb hc⟩
      · intro _; trivial

/-- C5: on the five injection-shaped test inputs the validator returns
exactly [true, true, false, false, false], and in general it accepts an
input iff it is a string of length at most 50 containing none of the
characters `$`, `{`, `}`, `;`. -/
theorem injection_input_validation (v : Json) :
    injection_test_inputs.map validate_user_input = [true, true, false, false, false] ∧
    (validate_user_input v = true ↔
      ∃ s : String, v = .str s ∧ s.length ≤ 50 ∧ ∀ c ∈ s.data, c ∉ banned_chars) := by
  refine ⟨rfl, ?_⟩
  cases v with
  | str s => simpa using validate_user_input_str s
  | null => simp [validate_user_input]
  | bool b => simp [validate_user_input]
  | num n => simp [validate_user_input]
  | arr xs => simp [validate_user_input]
  | obj fields => simp [validate_user_input]

/-- Witness for C5 at the concrete input "admin". -/
theorem injection_input_validation_witness :
    validate_user_input (.str "admin") = true :=
  (injection_input_validation (.str "admin")).2.mpr
    ⟨"admin", rfl, by decide, by decide⟩

theorem foldl_appendResult (rs acc : List Json) :
    rs.foldl appendResult acc = acc ++ rs := by
  induction rs generalizing acc with
  | nil => simp
  | cons r rs ih => simp [appendResult, ih]

/-- C3 counterexample: the functional/CRUD suite executor exposes no
run-full operation at all (it is a pytest module that writes no report
file), so not every suite executor has one. -/
theorem crud_module_has_no_run_full :
    suiteRunFull Suite.functional = none ∧
    ¬ ∃ f, suiteRunFull Suite.functional = some f := by
  refine ⟨rfl, ?_⟩
  rintro ⟨f, h⟩
  cases h

/-- C3 amended: the performance, security and data-validation executors
each expose a run-full operation that accumulates check results in
memory and serialises the accumulator plus a timestamp to a
category-specific report file; the functional/CRUD suite is a pytest
module with no run-full operation and no report file. -/
theorem run_full_suites_serialise_accumulator (rs : List Json) (ts : String) :
    suiteRunFull .functional = none ∧
    suiteRunFull .performance = some run_full_performance_suite ∧
    suiteRunFull .security = some run_full_security_suite ∧
    suiteRunFull .validation = some run_full_validation_suite ∧
    ((run_full_performance_suite rs ts).accumulator = rs ∧
     (run_full_performance_suite rs ts).reportFile =
       "reports/performance_report_" ++ ts ++ ".json" ∧
     jget (run_full_performance_suite rs ts).reportContent "results" =
       some (.arr rs) ∧
     ((jget (run_full_performance_suite rs ts).reportContent "test_summary").bind
       (fun j => jget j "test_timestamp")) = some (.str ts)) ∧
    ((run_full_security_suite rs ts).accumulator = rs ∧
     (run_full_security_suite rs ts).reportFile =
       "reports/security_report_" ++ ts ++ ".json" ∧
     jget (run_full_security_suite rs ts).reportContent "test_results" =
       some (.arr rs) ∧
     ((jget (run_full_security_suite rs ts).reportContent "security_test_summary").bind
       (fun j => jget j "test_timestamp")) = some (.str ts)) ∧
    ((run_full_validation_suite rs ts).accumulator = rs ∧
     (run_full_validation_suite rs ts).reportFile =
       "reports/validation_report_" ++ ts ++ ".json" ∧
     jget (run_full_validation_suite rs ts).reportContent "test_results" =
       some (.arr rs) ∧
     ((jget (run_full_validation_suite rs ts).reportContent "validation_test_summary").bind
       (fun j => jget j "test_timestamp")) = some (.str ts)) := by
  have hacc := foldl_appendResult rs []
  simp only [List.nil_append] at hacc
  refine ⟨rfl, rfl, rfl, rfl, ⟨?_, rfl, ?_, rfl⟩, ⟨?_, rfl, ?_, rfl⟩, ⟨?_, rfl, ?_, rfl⟩⟩
  · simpa [run_full_performance_suite] using hacc
  · simp only [run_full_performance_suite, generate_performance_report, jget, hacc]
    rfl
  · simpa [run_full_security_suite] using hacc
  · simp only [run_full_security_suite, generate_security_report, jget, hacc]
    rfl
  · simpa [run_full_validation_suite] using hacc
  · simp only [run_full_validation_suite, generate_validation_report, jget, hacc]
    rfl

/-- Witness for C3 (amended) at a concrete one-element accumulator and
timestamp. -/
theorem run_full_suites_serialise_accumulator_witness :
    (run_full_security_suite [.str "auth"] "20250101_000000").reportFile =
      "reports/security_report_20250101_000000.json" ∧
    (run_full_security_suite [.str "auth"] "20250101_000000").accumulator =
      [.str "auth"] :=
  ⟨(run_full_suites_serialise_accumulator [.str "auth"] "20250101_000000").2.2.2.2.2.1.2.1,
   (run_full_suites_serialise_accumulator [.str "auth"] "20250101_000000").2.2.2.2.2.1.1⟩

theorem lexLe_refl (a : List Char) : lexLe a a = true := by
  induction a with
  | nil => rfl
  | cons c cs ih => simp [lexLe, ih]

theorem lexLe_total (a b : List Char) : lexLe a b = true ∨ lexLe b a = true := by
  induction a generalizing b with
  | nil => exact Or.inl rfl
  | cons c cs ih =>
    cases b with
    | nil => exact Or.inr rfl
    | cons d ds =>
      rcases lt_trichotomy c d with h | h | h
      · left; simp [lexLe, h]
      · subst h
        rcases ih ds with h2 | h2
        · left; simp [lexLe, h2]
        · right; simp [lexLe, h2]
      · right; simp [lexLe, h]

theorem lexLe_trans (a b c : List Char) (h1 : lexLe a b = true)
    (h2 : lexLe b c = true) : lexLe a c = true := by
  induction a generalizing b c with
  | nil => rfl
  | cons x xs ih =>
    cases b with
    | nil => simp [lexLe] at h1
    | cons y ys =>
      cases c with
      | nil => simp [lexLe] at h2
      | cons z zs =>
        rcases lt_trichotomy x y with hxy | hxy | hxy
        · rcases lt_trichotomy y z with hyz | hyz | hyz
          · simp [lexLe, hxy.trans hyz]
          · subst hyz; simp [lexLe, hxy]
          · simp [lexLe, asymm hyz, hyz] at h2
        · subst hxy
          rcases lt_trichotomy x z with hyz | hyz | hyz
          · simp [lexLe, hyz]
          · subst hyz
            simp only [lexLe, lt_self_iff_false, if_false] at h1 h2 ⊢
            exact ih ys zs h1 h2
          · simp [lexLe, asymm hyz, hyz] at h2
        · simp [lexLe, asymm hxy, hxy] at h1

theorem sortedLast_loop (L : List String) (a : Option String) (m : String)
    (h : L.foldl maxStep a = some m) :
    (m ∈ L ∨ a = some m) ∧ (∀ f ∈ L, lexLe f.data m.data = true) ∧
      (∀ g, a = some g → lexLe g.data m.data = true) := by
  induction L generalizing a with
  | nil =>
    simp only [List.foldl_nil] at h
    refine ⟨Or.inr h, by simp, fun g hg => ?_⟩
    rw [hg] at h
    cases h
    exact lexLe_refl _
  | cons f L ih =>
    simp only [List.foldl_cons] at h
    obtain ⟨hmem, hall, hacc⟩ := ih (maxStep a f) h
    have hf : lexLe f.data m.data = true := by
      cases a with
      | none => exact hacc f rfl
      | some g =>
        by_cases hg : lexLe g.data f.data = true
        · exact hacc f (by simp [maxStep, hg])
        · have h1 : lexLe f.data g.data = true :=
            (lexLe_total g.data f.data).resolve_left hg
          exact lexLe_trans _ _ _ h1 (hacc g (by simp [maxStep, hg]))
    refine ⟨?_, ?_, ?_⟩
    · rcases hmem with h1 | h1
      · exact Or.inl (List.mem_cons_of_mem _ h1)
      · cases a with
        | none =>
          cases h1
          exact Or.inl (List.mem_cons_self _ _)
        | some g =>
          by_cases hg : lexLe g.data f.data = true
          · simp only [maxStep, if_pos hg, Option.some.injEq] at h1
            exact Or.inl (h1 ▸ List.mem_cons_self _ _)
          · simp only [maxStep, if_neg hg] at h1
            exact Or.inr h1
    · intro x hx
      rcases List.mem_cons.mp hx with rfl | hx
      · exact hf
      · exact hall x hx
    · intro g hg
      subst hg
      by_cases hgf : lexLe g.data f.data = true
      · exact lexLe_trans _ _ _ hgf hf
      · exact hacc g (by simp [maxStep, hgf])

theorem sortedLast_is_max (L : List String) (m : String)
    (h : sortedLast L = some m) :
    m ∈ L ∧ ∀ f ∈ L, lexLe f.data m.data = true := by
  obtain ⟨hmem, hall, -⟩ := sortedLast_loop L none m h
  rcases hmem with h1 | h1
  · exact ⟨h1, hall⟩
  · cases h1

theorem loadStep_keys (fs : List (String × FileRead)) (p key : String)
    (acc : List (String × Json)) :
    (∃ r, loadStep fs p key acc = .ok r ∧
       (r.map Prod.fst = acc.map Prod.fst ∨
        r.map Prod.fst = acc.map Prod.fst ++ [key])) ∨
    loadStep fs p key acc = .error acc := by
  unfold loadStep
  cases hs : sortedLast (matchingFiles p (fs.map Prod.fst)) with
  | none => exact Or.inl ⟨acc, rfl, Or.inl rfl⟩
  | some latest =>
    cases hl : fs.lookup latest with
    | none => right; simp [hl]
    | some e =>
      cases e with
      | ok j => exact Or.inl ⟨acc ++ [(key, j)], by simp [hl], Or.inr (by simp)⟩
      | error u => right; simp [hl]

theorem dashboard_keys_sublist (d : DirState) :
    List.Sublist ((dashboard_load_latest_results d).map Prod.fst)
      ["summary", "performance", "security", "validation"] := by
  unfold dashboard_load_latest_results dashboard_load_raw
  cases d with
  | none => simp
  | some fs =>
    dsimp only
    rcases loadStep_keys fs "test_summary_" "summary" [] with ⟨r1, h1, hk1⟩ | h1 <;>
      simp only [h1]
    · rcases loadStep_keys fs "performance_report_" "performance" r1 with
        ⟨r2, h2, hk2⟩ | h2 <;> simp only [h2]
      · rcases loadStep_keys fs "security_report_" "security" r2 with
          ⟨r3, h3, hk3⟩ | h3 <;> simp only [h3]
        · rcases loadStep_keys fs "validation_report_" "validation" r3 with
            ⟨r4, h4, hk4⟩ | h4 <;> simp only [h4]
          · rcases hk1 with hk1 | hk1 <;> rcases hk2 with hk2 | hk2 <;>
              rcases hk3 with hk3 | hk3 <;> rcases hk4 with hk4 | hk4 <;>
              simp only [hk4, hk3, hk2, hk1, List.map_nil, List.nil_append,
                List.append_assoc] <;> decide
          · rcases hk1 with hk1 | hk1 <;> rcases hk2 with hk2 | hk2 <;>
              rcases hk3 with hk3 | hk3 <;>
              simp only [hk3, hk2, hk1, List.map_nil, List.nil_append,
                List.append_assoc] <;> decide
        · rcases hk1 with hk1 | hk1 <;> rcases hk2 with hk2 | hk2 <;>
            simp only [hk2, hk1, List.map_nil, List.nil_append,
              List.append_assoc] <;> decide
      · rcases hk1 with hk1 | hk1 <;>
          simp only [hk1, List.map_nil, List.nil_append] <;> decide
    · simp

/-- C4 counterexample: with one timestamped performance report present
(the most recent such file in the directory), the report generator still
loads nothing for the performance category, because it reads the fixed
filename `performance_test_results.json` instead of locating the most
recent `performance_report_` file. -/
theorem report_generator_misses_timestamped_file :
    (load_latest_results perfOnlyDir).performance = none ∧
    sortedLast (matchingFiles "performance_report_" (perfOnlyDir.map Prod.fst)) =
      some "performance_report_20250101_000000.json" := by
  constructor <;> rfl

/-- C4 amended: the report generator reads the four suite categories
from fixed filenames and locates only the summary by greatest
`test_summary_` filename; the chosen summary file is the
lexicographically greatest match; the dashboard locates, per category
prefix, the lexicographically greatest matching filename, and never
loads a CRUD category. -/
theorem latest_results_selection (dir : ReportsDir) (p m : String) :
    ((load_latest_results dir).crud = readFile dir "crud_test_results.json" ∧
     (load_latest_results dir).performance =
       readFile dir "performance_test_results.json" ∧
     (load_latest_results dir).security =
       readFile dir "security_test_results.json" ∧
     (load_latest_results dir).validation =
       readFile dir "data_validation_results.json" ∧
     (load_latest_results dir).summary =
       (sortedLast (matchingFiles "test_summary_" (dir.map Prod.fst))).bind
         (readFile dir)) ∧
    (sortedLast (matchingFiles p (dir.map Prod.fst)) = some m →
      m ∈ matchingFiles p (dir.map Prod.fst) ∧
      ∀ f ∈ matchingFiles p (dir.map Prod.fst), lexLe f.data m.data = true) ∧
    (∀ k v, (k, v) ∈ dashboard_load_latest_results (some (okDir dir)) →
      k = "summary" ∨ k = "performance" ∨ k = "security" ∨ k = "validation") := by
  refine ⟨⟨rfl, rfl, rfl, rfl, rfl⟩, fun h => sortedLast_is_max _ _ h, ?_⟩
  intro k v hkv
  have hs := dashboard_keys_sublist (some (okDir dir))
  have hk : k ∈ (dashboard_load_latest_results (some (okDir dir))).map Prod.fst :=
    List.mem_map_of_mem Prod.fst hkv
  simpa using hs.subset hk

/-- Witness for C4 (amended): with two summary files present, the later
timestamped name is selected and dominates both matches. -/
theorem latest_results_selection_witness :
    "test_summary_20240202_000000.json" ∈
      matchingFiles "test_summary_" (summaryPairDir.map Prod.fst) ∧
    ∀ f ∈ matchingFiles "test_summary_" (summaryPairDir.map Prod.fst),
      lexLe f.data "test_summary_20240202_000000.json".data = true :=
  (latest_results_selection summaryPairDir "test_summary_"
      "test_summary_20240202_000000.json").2.1 (by decide)

/-- C7 counterexample: with every category result file absent (an empty
reports directory), no sheet is written inside the `with pd.ExcelWriter`
body and closing the writer raises, so spreadsheet generation does not
produce an output document in the all-absent case. -/
theorem excel_report_all_absent_raises :
    load_latest_results [] = allAbsent ∧
    excelSheets allAbsent = [] ∧
    generate_excel_report [] = .error () := by
  refine ⟨rfl, rfl, rfl⟩

/-- C7 amended: HTML report generation does not raise for any
combination of absent category result files — the document always
carries its header and footer, each absent category's section is
omitted, and with every file absent it reduces to its static skeleton;
spreadsheet generation omits absent categories' sheets and produces an
output document whenever at least one sheet is written, but when every
category file is absent no sheet is written and closing the spreadsheet
writer raises instead of producing a document. -/
theorem report_rendering_absent_categories (r : LoadedResults) (dir : ReportsDir) :
    (SectionId.header ∈ htmlSections (htmlContext r) ∧
     SectionId.footer ∈ htmlSections (htmlContext r)) ∧
    (r.crud = none → SectionId.crud ∉ htmlSections (htmlContext r) ∧
      "CRUD Tests" ∉ excelSheets r) ∧
    (r.performance = none → SectionId.performance ∉ htmlSections (htmlContext r) ∧
      "Performance Tests" ∉ excelSheets r) ∧
    (r.security = none → SectionId.security ∉ htmlSections (htmlContext r) ∧
      "Security Tests" ∉ excelSheets r) ∧
    (r.validation = none → SectionId.validation ∉ htmlSections (htmlContext r) ∧
      "Data Validation" ∉ excelSheets r ∧ "Data Quality" ∉ excelSheets r) ∧
    (r.summary = none → SectionId.recommendations ∉ htmlSections (htmlContext r) ∧
      "Summary" ∉ excelSheets r) ∧
    (htmlSections (htmlContext allAbsent) =
      [.header, .coverageOverview, .footer] ∧
     excelSheets allAbsent = [] ∧
     generate_excel_report [] = .error ()) ∧
    ((excelSheets (load_latest_results dir)).isEmpty = false →
      generate_excel_report dir = .ok (excelSheets (load_latest_results dir))) := by
  obtain ⟨c, p, s, v, su⟩ := r
  refine ⟨?_, ?_, ?_, ?_, ?_, ?_, ⟨rfl, rfl, rfl⟩, ?_⟩
  · constructor <;> simp [htmlSections]
  · rintro rfl
    constructor
    · simp [htmlSections, htmlContext, jinjaTruthyOpt]
    · cases p <;> cases s <;> cases v <;> cases su <;>
        simp [excelSheets]
  · rintro rfl
    constructor
    · simp [htmlSections, htmlContext, jinjaTruthyOpt]
    · cases c <;> cases s <;> cases v <;> cases su <;>
        simp [excelSheets]
  · rintro rfl
    constructor
    · simp [htmlSections, htmlContext, jinjaTruthyOpt]
    · cases c <;> cases p <;> cases v <;> cases su <;>
        simp [excelSheets]
  · rintro rfl
    refine ⟨?_, ?_, ?_⟩
    · simp [htmlSections, htmlContext, jinjaTruthyOpt]
    · cases c <;> cases p <;> cases s <;> cases su <;>
        simp [excelSheets]
    · cases c <;> cases p <;> cases s <;> cases su <;>
        simp [excelSheets]
  · rintro rfl
    constructor
    · simp [htmlSections, htmlContext, jinjaTruthyOpt, jgetD, jget,
        jinjaTruthy]
    · cases c <;> cases p <;> cases s <;> cases v <;>
        simp [excelSheets]
  · intro h
    simp only [generate_excel_report, h]
    rfl

/-- Witness for C7 (amended): with every category file absent the HTML
skeleton renders and the crud section is omitted; with one summary file
present a one-sheet spreadsheet is produced. -/
theorem report_rendering_absent_categories_witness :
    (SectionId.crud ∉ htmlSections (htmlContext allAbsent) ∧
     "CRUD Tests" ∉ excelSheets allAbsent) ∧
    generate_excel_report summaryPairDir = .ok ["Summary"] := by
  refine ⟨(report_rendering_absent_categories allAbsent summaryPairDir).2.1 rfl, ?_⟩
  have h := (report_rendering_absent_categories allAbsent
      summaryPairDir).2.2.2.2.2.2.2 rfl
  rw [h]
  rfl

/-- C10: the dashboard's result loading is total for every state of the
reports directory — the served keys are always a subset of the four
categories in order, a missing directory yields the empty dict, the data
endpoint serves exactly the loaded dict as JSON, and the
`except Exception` handler returns whatever results were accumulated
when the body raised (the full dict when nothing raised). -/
theorem dashboard_endpoint_never_raises (d : DirState) :
    List.Sublist ((dashboard_load_latest_results d).map Prod.fst)
      ["summary", "performance", "security", "validation"] ∧
    dashboard_load_latest_results none = [] ∧
    api_data d = .obj (dashboard_load_latest_results d) ∧
    (∀ r, dashboard_load_raw d = .error r → dashboard_load_latest_results d = r) ∧
    (∀ r, dashboard_load_raw d = .ok r → dashboard_load_latest_results d = r) := by
  refine ⟨dashboard_keys_sublist d, rfl, rfl, ?_, ?_⟩
  · intro r h
    simp [dashboard_load_latest_results, h]
  · intro r h
    simp [dashboard_load_latest_results, h]

/-- Witness for C10: a missing reports directory raises inside the
`try` block and the endpoint serves the empty dict. -/
theorem dashboard_endpoint_never_raises_witness :
    dashboard_load_latest_results none = [] ∧ api_data none = .obj [] :=
  ⟨(dashboard_endpoint_never_raises none).2.2.2.1 [] rfl,
   by rw [(dashboard_endpoint_never_raises none).2.2.1,
          (dashboard_endpoint_never_raises none).2.2.2.1 [] rfl]⟩

end MongoPortfolio
